import Mathlib

/-!
Verification of the Harmony Guide integration layer.

The definitions below are a shallow embedding of the Python module
streamlit_app.py (class MusicRecommender).  External effects — the HTTP
transport, the Spotify search backend and the Streamlit widgets — are
abstracted as explicit inputs and outputs: an HTTP response value is an
argument, emitted warnings / error messages and issued requests are
returned.  Python exceptions are modelled with Except, JSON objects with
structures whose fields are Option-valued (none = key absent), and Python
string operations are reimplemented over List Char.
-/

namespace HarmonyGuide

/-! ## Title extraction (run, line 284): result.split(": ")[-1] -/

/-- Python s.split(sep) for the two-character separator colon-space,
translated over char lists: scan left to right, cut at every
non-overlapping occurrence.  Always returns a non-empty list. -/
def splitCS : List Char → List (List Char)
  | [] => [[]]
  | [c] => [[c]]
  | c1 :: c2 :: rest =>
    if c1 == ':' && c2 == ' ' then
      [] :: splitCS rest
    else
      match splitCS (c2 :: rest) with
      | [] => [[c1]]
      | s :: ss => (c1 :: s) :: ss

/-- Python negative index [-1] on a list known to be non-empty
(split never returns an empty list). -/
def last1 : List (List Char) → List Char
  | [] => []
  | [x] => x
  | _ :: y :: ys => last1 (y :: ys)

/-- Whether the char list contains an occurrence of colon-space. -/
def hasCS : List Char → Bool
  | c1 :: c2 :: rest => (c1 == ':' && c2 == ' ') || hasCS (c2 :: rest)
  | _ => false

/-- The suffix strictly after the last occurrence of colon-space,
assuming there is at least one occurrence. -/
def afterLastAux : List Char → List Char
  | c1 :: c2 :: rest =>
    if c1 == ':' && c2 == ' ' then
      if hasCS rest then afterLastAux rest else rest
    else
      afterLastAux (c2 :: rest)
  | _ => []

/-- The spec's wording for the extraction rule: "only the suffix after
the last colon-space is kept"; when no separator occurs the whole
string is the single segment. -/
def afterLast (l : List Char) : List Char :=
  if hasCS l then afterLastAux l else l

/-- Embedding of line 284: result.split(": ")[-1] applied to the
song-title field value. -/
def extractTitle (s : String) : String :=
  String.mk (last1 (splitCS s.data))

/-- Spec-side definition, following the spec's words: the segment after
the last occurrence of colon-space (the whole string when absent). -/
def lastSegmentSpec (s : String) : String :=
  String.mk (afterLast s.data)

/-! ## The main flow (run, lines 265-290) -/

/-- Python str.strip() whitespace set restricted to ASCII. -/
def pyIsSpace (c : Char) : Bool :=
  c == ' ' || c == '\t' || c == '\n' || c == '\r' || c == '\x0b' || c == '\x0c'

/-- The guard on line 276: "not artist_name.strip()" — true when the
artist name is empty or whitespace-only. -/
def pyBlank (s : String) : Bool :=
  s.data.all pyIsSpace

/-- Abstraction of the single outbound GET to the recommendation
service.  A RequestException from the transport and an HTTPError from
raise_for_status on a non-success status are the same except branch in
the code, so both are the failure constructor; a parsed JSON object
body (string-valued fields, per the service contract) is the success
constructor. -/
inductive RecResponse where
  | failure (detail : String)
  | success (body : List (String × String))

/-- Python dict[key] on the parsed body: some value, or a KeyError when
the key is absent. -/
def jsonGet (body : List (String × String)) (key : String) : Option String :=
  (body.find? (fun kv => kv.1 == key)).map (fun kv => kv.2)

/-- Everything observable about one button press: the URLs requested
from the recommendation service, the st.warning and st.error texts, and
the (song, artist) pair handed to display_recommendation. -/
structure RunResult where
  requests : List String
  warnings : List String
  errors : List String
  displayed : Option (String × String)
  deriving DecidableEq, Repr

/-- Embedding of run (lines 275-290): the blank-input guard, the single
requests.get, raise_for_status, the recommended_song field read, the
title extraction, and the two except branches. -/
def runFlow (apiUrl artist : String) (resp : RecResponse) : RunResult :=
  if pyBlank artist then
    { requests := [], warnings := ["Please enter an artist name"],
      errors := [], displayed := none }
  else
    let url := apiUrl ++ "?artist_name=" ++ artist
    match resp with
    | RecResponse.failure d =>
      { requests := [url], warnings := [],
        errors := ["Recommendation service unavailable: " ++ d],
        displayed := none }
    | RecResponse.success body =>
      match jsonGet body "recommended_song" with
      | none =>
        { requests := [url], warnings := [],
          errors := ["Unexpected response format from API"],
          displayed := none }
      | some v =>
        { requests := [url], warnings := [], errors := [],
          displayed := some (extractTitle v, artist) }

/-! ## Catalog lookup (get_song_info, lines 37-59) -/

/-- One entry of album.images; the url field may be absent. -/
structure Image where
  url : Option String
  deriving DecidableEq, Repr

/-- The external_urls object; the spotify field may be absent. -/
structure ExtUrls where
  spotify : Option String
  deriving DecidableEq, Repr

/-- The album object of a track; none models an absent key. -/
structure Album where
  images : Option (List Image)
  release_date : Option String
  deriving DecidableEq, Repr

/-- A track record as returned by the catalog search; every field is
Option-valued, none modelling an absent key (track.get returns None,
bracket access raises KeyError). -/
structure Track where
  preview_url : Option String
  explicit : Option Bool
  id : Option String
  album : Option Album
  external_urls : Option ExtUrls
  deriving DecidableEq, Repr

/-- The dict built on lines 48-55 when extraction succeeds. -/
structure TrackInfo where
  preview_url : Option String
  explicit : Bool
  spotify_id : String
  album_cover : Option String
  release_date : String
  spotify_url : String
  deriving DecidableEq, Repr

/-- Outcome of sp.search: a raised exception (transport or parsing),
or the results['tracks']['items'] list. -/
inductive SearchOutcome where
  | error (detail : String)
  | results (items : List Track)

/-- The advanced search query built on line 41. -/
def buildQuery (song artist : String) : String :=
  "track:\"" ++ song ++ "\" artist:\"" ++ artist ++ "\""

/-- Line 52: track.album.images[0].url if the images list is truthy,
else None; bracket access on an absent key raises KeyError (modelled as
the error constructor, carrying str(e) of the KeyError). -/
def coverFromImages : List Image → Except String (Option String)
  | [] => Except.ok none
  | img :: _ =>
    match img.url with
    | none => Except.error "KeyError: url"
    | some u => Except.ok (some u)

/-- Lines 48-55: building the returned dict.  Each bracket access on an
absent key raises KeyError; .get accesses supply their defaults. -/
def buildTrackInfo (track : Track) : Except String TrackInfo :=
  match track.id with
  | none => Except.error "KeyError: id"
  | some tid =>
    match track.album with
    | none => Except.error "KeyError: album"
    | some alb =>
      match alb.images with
      | none => Except.error "KeyError: images"
      | some imgs =>
        match coverFromImages imgs with
        | Except.error e => Except.error e
        | Except.ok cover =>
          match track.external_urls with
          | none => Except.error "KeyError: external_urls"
          | some ext =>
            match ext.spotify with
            | none => Except.error "KeyError: spotify"
            | some surl =>
              Except.ok
                { preview_url := track.preview_url
                  explicit := track.explicit.getD false
                  spotify_id := tid
                  album_cover := cover
                  release_date := alb.release_date.getD ""
                  spotify_url := surl }

/-- Embedding of get_song_info: build the query, run the search, return
None on zero items, extract the dict from the first item, and catch
every exception (line 57), reporting it via st.error and returning
None.  The second component collects the st.error messages. -/
def get_song_info (song_name artist_name : String)
    (search : String → SearchOutcome) : Option TrackInfo × List String :=
  match search (buildQuery song_name artist_name) with
  | SearchOutcome.error d => (none, ["Track lookup error: " ++ d])
  | SearchOutcome.results items =>
    match items with
    | [] => (none, [])
    | track :: _ =>
      match buildTrackInfo track with
      | Except.ok info => (some info, [])
      | Except.error e => (none, ["Track lookup error: " ++ e])

/-! ## Alternate links (show alternatives, lines 109-120) -/

/-- ASCII characters urllib.parse never encodes: letters, digits and
underscore, dot, hyphen, tilde. -/
def alwaysSafe (c : Char) : Bool :=
  c.isAlphanum || c == '_' || c == '.' || c == '-' || c == '~'

/-- Uppercase hex digit for a value below 16. -/
def hexDigit (n : Nat) : Char :=
  if n < 10 then Char.ofNat (48 + n) else Char.ofNat (55 + n)

/-- Percent-encoding of one byte. -/
def percentByte (b : Nat) : List Char :=
  ['%', hexDigit (b / 16), hexDigit (b % 16)]

/-- UTF-8 encoding of one character as byte values. -/
def utf8Bytes (c : Char) : List Nat :=
  let n := c.toNat
  if n < 128 then [n]
  else if n < 2048 then [192 + n / 64, 128 + n % 64]
  else if n < 65536 then [224 + n / 4096, 128 + n / 64 % 64, 128 + n % 64]
  else [240 + n / 262144, 128 + n / 4096 % 64, 128 + n / 64 % 64, 128 + n % 64]

/-- One character under urllib.parse.quote with the given extra safe
characters: kept verbatim when safe, otherwise UTF-8 encoded and each
byte percent-encoded. -/
def quoteChar (safe : List Char) (c : Char) : List Char :=
  if alwaysSafe c || safe.contains c then [c]
  else (utf8Bytes c).flatMap percentByte

/-- urllib.parse.quote with its default safe set (the slash). -/
def quote (s : String) : String :=
  String.mk (s.data.flatMap (quoteChar ['/']))

/-- urllib.parse.quote_plus: no safe characters, space becomes plus. -/
def quote_plus (s : String) : String :=
  String.mk (s.data.flatMap (fun c => if c == ' ' then ['+'] else quoteChar [] c))

/-- Embedding of the urls dict of lines 114-120, in insertion order.
Python truthiness on spotify_id: None and the empty string both select
the search URL. -/
def show_alternatives (song_name artist_name : String)
    (spotify_id : Option String) : List (String × String) :=
  let base_query := song_name ++ " " ++ artist_name
  [ ("Spotify Direct",
      match spotify_id with
      | some sid =>
        if sid = "" then "https://open.spotify.com/search/" ++ quote base_query
        else "https://open.spotify.com/track/" ++ sid
      | none => "https://open.spotify.com/search/" ++ quote base_query),
    ("YouTube Music", "https://music.youtube.com/search?q=" ++ quote_plus base_query),
    ("SoundCloud", "https://soundcloud.com/search?q=" ++ quote_plus base_query),
    ("Deezer", "https://www.deezer.com/search/" ++ quote base_query) ]

/-! ## Helper lemmas and concrete evaluations -/

theorem splitCS_ne_nil (l : List Char) : splitCS l ≠ [] := by
  match l with
  | [] => simp [splitCS]
  | [c] => simp [splitCS]
  | c1 :: c2 :: rest =>
    simp only [splitCS]
    split
    · simp
    · split <;> simp

theorem last1_cons_cons (x y : List Char) (ys : List (List Char)) :
    last1 (x :: y :: ys) = last1 (y :: ys) := rfl

theorem splitCS_no_sep (l : List Char) (h : hasCS l = false) :
    splitCS l = [l] := by
  induction l using splitCS.induct with
  | case1 => rfl
  | case2 c => rfl
  | case3 c1 c2 rest hsep ih =>
    simp [hasCS, hsep] at h
  | case4 c1 c2 rest hsep heq ih =>
    exact absurd heq (splitCS_ne_nil _)
  | case5 c1 c2 rest hsep s ss heq ih =>
    simp only [hasCS, Bool.or_eq_false_iff] at h
    have h2 := ih h.2
    rw [heq] at h2
    injection h2 with hs hss
    subst hs; subst hss
    rw [splitCS, if_neg hsep, heq]

theorem splitCS_sep_two (l : List Char) (h : hasCS l = true) :
    ∃ s ss, splitCS l = s :: ss ∧ ss ≠ [] := by
  induction l using splitCS.induct with
  | case1 => simp [hasCS] at h
  | case2 c => simp [hasCS] at h
  | case3 c1 c2 rest hsep ih =>
    refine ⟨[], splitCS rest, ?_, splitCS_ne_nil rest⟩
    rw [splitCS, if_pos hsep]
  | case4 c1 c2 rest hsep heq ih =>
    exact absurd heq (splitCS_ne_nil _)
  | case5 c1 c2 rest hsep s ss heq ih =>
    simp only [hasCS, Bool.or_eq_true] at h
    rcases h with h | h
    · exact absurd h (by simpa using hsep)
    · obtain ⟨t, ts, hts, hne⟩ := ih h
      rw [heq] at hts
      injection hts with h1 h2
      subst h1; subst h2
      exact ⟨c1 :: s, ss, by rw [splitCS, if_neg hsep, heq], hne⟩

theorem last1_splitCS_sep (l : List Char) (h : hasCS l = true) :
    last1 (splitCS l) = afterLastAux l := by
  induction l using splitCS.induct with
  | case1 => simp [hasCS] at h
  | case2 c => simp [hasCS] at h
  | case3 c1 c2 rest hsep ih =>
    rw [splitCS, if_pos hsep, afterLastAux]
    rw [if_pos hsep]
    by_cases hr : hasCS rest = true
    · rw [if_pos hr, ← ih hr]
      obtain ⟨s, ss, hss, _⟩ := splitCS_sep_two rest hr
      rw [hss]
      exact last1_cons_cons _ _ _
    · rw [if_neg hr]
      rw [splitCS_no_sep rest (by simpa using hr)]
      rfl
  | case4 c1 c2 rest hsep heq ih =>
    exact absurd heq (splitCS_ne_nil _)
  | case5 c1 c2 rest hsep s ss heq ih =>
    simp only [hasCS, Bool.or_eq_true] at h
    rcases h with h | h
    · exact absurd h (by simpa using hsep)
    · obtain ⟨t, ts, hts, hne⟩ := splitCS_sep_two _ h
      rw [heq] at hts
      injection hts with h1 h2
      subst h1; subst h2
      rw [splitCS, if_neg hsep, heq]
      rw [afterLastAux, if_neg hsep]
      rw [← ih h, heq]
      cases ss with
      | nil => exact absurd rfl hne
      | cons y ys => rfl

/-- The code's extraction (split on every colon-space, take the last
segment) agrees with the spec's wording (suffix after the last
occurrence) on every input. -/
theorem last1_splitCS (l : List Char) : last1 (splitCS l) = afterLast l := by
  rw [afterLast]
  by_cases h : hasCS l = true
  · rw [if_pos h, last1_splitCS_sep l h]
  · have hf : hasCS l = false := by simpa using h
    rw [if_neg h, splitCS_no_sep l hf]
    rfl

theorem extractTitle_eq_lastSegmentSpec (s : String) :
    extractTitle s = lastSegmentSpec s := by
  rw [extractTitle, lastSegmentSpec, last1_splitCS]

example : extractTitle "Top Pick: Yesterday" = "Yesterday" := by decide
example : extractTitle "A: B: C" = "C" := by decide

example : quote "Yesterday The Beatles" = "Yesterday%20The%20Beatles" := by decide
example : quote_plus "Yesterday The Beatles" = "Yesterday+The+Beatles" := by decide

/-! ## Claim theorems -/

/-- C1: for every recommendation payload whose song-title field is a
string, the extracted title is the last segment of the string split on
colon-space — equivalently the suffix after the last occurrence — and
on "Top Pick: Yesterday" the result is "Yesterday", on "A: B: C" it is
"C". -/
theorem claim_C1 :
    extractTitle "Top Pick: Yesterday" = "Yesterday" ∧
    extractTitle "A: B: C" = "C" ∧
    ∀ s : String, extractTitle s = lastSegmentSpec s :=
  ⟨by decide, by decide, extractTitle_eq_lastSegmentSpec⟩

/-- C2 counterexample: the claim says the outcome is never an empty
title, but for the non-blank artist "Queen" and a service response
whose recommended_song field holds the empty string, the flow displays
the empty title rather than raising a classified error. -/
theorem claim_C2_counterexample :
    pyBlank "Queen" = false ∧
    (runFlow "http://127.0.0.1:8000/recommend/" "Queen"
        (RecResponse.success [("recommended_song", "")])).displayed =
      some ("", "Queen") ∧
    (runFlow "http://127.0.0.1:8000/recommend/" "Queen"
        (RecResponse.success [("recommended_song", "")])).errors = [] := by
  refine ⟨by decide, ?_, ?_⟩ <;> rfl

/-- C2 amended: for every non-blank artist name the flow issues exactly
one outbound request (and no warning), and the outcome is exactly one
of: a displayed title for that artist (possibly empty), a
ServiceUnavailable error, or a MalformedResponse error — never an
unclassified crash. -/
theorem claim_C2 (apiUrl artist : String) (resp : RecResponse)
    (h : pyBlank artist = false) :
    (runFlow apiUrl artist resp).requests = [apiUrl ++ "?artist_name=" ++ artist] ∧
    (runFlow apiUrl artist resp).warnings = [] ∧
    ((∃ t : String, (runFlow apiUrl artist resp).displayed = some (t, artist) ∧
        (runFlow apiUrl artist resp).errors = []) ∨
      (∃ d : String, (runFlow apiUrl artist resp).errors =
          ["Recommendation service unavailable: " ++ d] ∧
        (runFlow apiUrl artist resp).displayed = none) ∨
      ((runFlow apiUrl artist resp).errors = ["Unexpected response format from API"] ∧
        (runFlow apiUrl artist resp).displayed = none)) := by
  cases resp with
  | failure d =>
    refine ⟨?_, ?_, Or.inr (Or.inl ⟨d, ?_, ?_⟩)⟩ <;> simp [runFlow, h]
  | success body =>
    cases hj : jsonGet body "recommended_song" with
    | none =>
      refine ⟨?_, ?_, Or.inr (Or.inr ⟨?_, ?_⟩)⟩ <;> simp [runFlow, h, hj]
    | some v =>
      refine ⟨?_, ?_, Or.inl ⟨extractTitle v, ?_, ?_⟩⟩ <;> simp [runFlow, h, hj]

/-- C2 witness: the amended theorem applied to artist "Queen" and a
transport failure. -/
theorem claim_C2_witness :
    (runFlow "u" "Queen" (RecResponse.failure "down")).requests =
      ["u" ++ "?artist_name=" ++ "Queen"] :=
  (claim_C2 "u" "Queen" (RecResponse.failure "down") (by decide)).1

/-- C3 counterexample: when the recommended_song field is absent the
surfaced message is "Unexpected response format from API", which is not
the message "Unexpected response format" stated by the claim. -/
theorem claim_C3_counterexample :
    (runFlow "http://127.0.0.1:8000/recommend/" "Queen"
        (RecResponse.success [])).errors =
      ["Unexpected response format from API"] ∧
    ("Unexpected response format from API" : String) ≠
      "Unexpected response format" := by
  exact ⟨rfl, by decide⟩

/-- C3 amended: if the response body lacks the recommended_song field,
the flow fails with the MalformedResponse branch, surfaces the message
"Unexpected response format from API", terminates without displaying
anything, and never defaults the missing field to an empty title. -/
theorem claim_C3 (apiUrl artist : String) (body : List (String × String))
    (h : pyBlank artist = false)
    (hj : jsonGet body "recommended_song" = none) :
    runFlow apiUrl artist (RecResponse.success body) =
      { requests := [apiUrl ++ "?artist_name=" ++ artist], warnings := [],
        errors := ["Unexpected response format from API"], displayed := none } := by
  simp [runFlow, h, hj]

/-- C3 witness: the amended theorem applied to artist "Queen" and an
empty response object. -/
theorem claim_C3_witness :
    runFlow "http://127.0.0.1:8000/recommend/" "Queen" (RecResponse.success []) =
      { requests := ["http://127.0.0.1:8000/recommend/" ++ "?artist_name=" ++ "Queen"],
        warnings := [], errors := ["Unexpected response format from API"],
        displayed := none } :=
  claim_C3 "http://127.0.0.1:8000/recommend/" "Queen" [] (by decide) rfl

/-- C9: for every blank or whitespace-only artist name, pressing the
button issues no request at all and produces the warning "Please enter
an artist name". -/
theorem claim_C9 (apiUrl artist : String) (resp : RecResponse)
    (h : pyBlank artist = true) :
    runFlow apiUrl artist resp =
      { requests := [], warnings := ["Please enter an artist name"],
        errors := [], displayed := none } := by
  simp [runFlow, h]

/-- C9 witness: the theorem applied to a whitespace-only artist name. -/
theorem claim_C9_witness :
    runFlow "http://127.0.0.1:8000/recommend/" "   " (RecResponse.failure "down") =
      { requests := [], warnings := ["Please enter an artist name"],
        errors := [], displayed := none } :=
  claim_C9 "http://127.0.0.1:8000/recommend/" "   " (RecResponse.failure "down") (by decide)

theorem buildTrackInfo_ok_fields (tr : Track) (info : TrackInfo)
    (h : buildTrackInfo tr = Except.ok info) :
    tr.id = some info.spotify_id ∧
    tr.album ≠ none ∧
    ∃ ext, tr.external_urls = some ext ∧ ext.spotify = some info.spotify_url := by
  cases hid : tr.id with
  | none => simp [buildTrackInfo, hid] at h
  | some tid =>
    cases halb : tr.album with
    | none => simp [buildTrackInfo, hid, halb] at h
    | some alb =>
      cases himg : alb.images with
      | none => simp [buildTrackInfo, hid, halb, himg] at h
      | some imgs =>
        cases hcov : coverFromImages imgs with
        | error e => simp [buildTrackInfo, hid, halb, himg, hcov] at h
        | ok cover =>
          cases hext : tr.external_urls with
          | none => simp [buildTrackInfo, hid, halb, himg, hcov, hext] at h
          | some ext =>
            cases hsp : ext.spotify with
            | none =>
              simp [buildTrackInfo, hid, halb, himg, hcov, hext, hsp] at h
            | some surl =>
              simp only [buildTrackInfo, hid, halb, himg, hcov, hext, hsp,
                Except.ok.injEq] at h
              subst h
              exact ⟨rfl, by simp, ext, rfl, hsp⟩

/-- C4: for every song title and artist name, a catalog search that
returns zero matching tracks makes lookup return None with no error
message — never a partially-populated record. -/
theorem claim_C4 (song artist : String) (search : String → SearchOutcome)
    (h : search (buildQuery song artist) = SearchOutcome.results []) :
    get_song_info song artist search = (none, []) := by
  rw [get_song_info, h]

/-- C4 witness: the theorem applied to a search that returns zero
items. -/
theorem claim_C4_witness :
    get_song_info "Yesterday" "The Beatles"
      (fun _ => SearchOutcome.results []) = (none, []) :=
  claim_C4 "Yesterday" "The Beatles" (fun _ => SearchOutcome.results []) rfl

/-- C5: every failure during catalog lookup is caught inside
get_song_info: a raised search exception, and equally an extraction
failure on the matched track, produce a reported lookup error and the
same None result as a zero-match outcome; the function is total, so no
exception escapes. -/
theorem claim_C5 :
    (∀ (song artist : String) (search : String → SearchOutcome) (d : String),
      search (buildQuery song artist) = SearchOutcome.error d →
      get_song_info song artist search = (none, ["Track lookup error: " ++ d])) ∧
    (∀ (song artist : String) (search : String → SearchOutcome)
      (tr : Track) (rest : List Track) (e : String),
      search (buildQuery song artist) = SearchOutcome.results (tr :: rest) →
      buildTrackInfo tr = Except.error e →
      get_song_info song artist search = (none, ["Track lookup error: " ++ e])) := by
  constructor
  · intro song artist search d h
    rw [get_song_info, h]
  · intro song artist search tr rest e h hb
    rw [get_song_info, h]
    simp only [hb]

/-- C5 witness: the theorem applied to a raised search exception and to
a matched track whose id key is absent. -/
theorem claim_C5_witness :
    get_song_info "Yesterday" "The Beatles" (fun _ => SearchOutcome.error "boom") =
      (none, ["Track lookup error: " ++ "boom"]) ∧
    get_song_info "Yesterday" "The Beatles"
        (fun _ => SearchOutcome.results
          [{ preview_url := none, explicit := none, id := none,
             album := none, external_urls := none }]) =
      (none, ["Track lookup error: " ++ "KeyError: id"]) :=
  ⟨claim_C5.1 "Yesterday" "The Beatles" (fun _ => SearchOutcome.error "boom") "boom" rfl,
   claim_C5.2 "Yesterday" "The Beatles"
     (fun _ => SearchOutcome.results
       [{ preview_url := none, explicit := none, id := none,
          album := none, external_urls := none }])
     { preview_url := none, explicit := none, id := none,
       album := none, external_urls := none } [] "KeyError: id" rfl rfl⟩

/-- C6 counterexample: the claim says a matched track with missing
album.images data yields a populated record with an absent cover and is
not treated as an error; but for a matched track whose album object has
no images key at all, bracket access raises, the whole lookup degrades
to None and a lookup error is reported. -/
theorem claim_C6_counterexample :
    get_song_info "Yesterday" "The Beatles"
        (fun _ => SearchOutcome.results
          [{ preview_url := none, explicit := some false, id := some "abc123",
             album := some { images := none, release_date := some "2020-01-01" },
             external_urls := some { spotify := some "https://open.spotify.com/track/abc123" } }]) =
      (none, ["Track lookup error: KeyError: images"]) := by
  rfl

/-- C6 amended: for every matched track whose album.images list is
present but empty, the lookup yields a record whose album_cover is None
while the remaining five fields are still populated, with no error
reported; when the images key is absent entirely, the extraction
raises and the lookup degrades to the error path, returning None with a
lookup-error message. -/
theorem claim_C6 :
    (∀ (song artist : String) (search : String → SearchOutcome)
      (tr : Track) (rest : List Track) (alb : Album) (tid surl : String)
      (ext : ExtUrls),
      search (buildQuery song artist) = SearchOutcome.results (tr :: rest) →
      tr.id = some tid → tr.album = some alb → alb.images = some [] →
      tr.external_urls = some ext → ext.spotify = some surl →
      get_song_info song artist search =
        (some { preview_url := tr.preview_url,
                explicit := tr.explicit.getD false,
                spotify_id := tid, album_cover := none,
                release_date := alb.release_date.getD "",
                spotify_url := surl }, [])) ∧
    (∀ (song artist : String) (search : String → SearchOutcome)
      (tr : Track) (rest : List Track) (alb : Album),
      search (buildQuery song artist) = SearchOutcome.results (tr :: rest) →
      tr.album = some alb → alb.images = none →
      (get_song_info song artist search).1 = none ∧
      (get_song_info song artist search).2 ≠ []) := by
  constructor
  · intro song artist search tr rest alb tid surl ext hs hid halb himg hext hsp
    simp [get_song_info, hs, buildTrackInfo, hid, halb, himg, coverFromImages,
      hext, hsp]
  · intro song artist search tr rest alb hs halb himg
    cases hid : tr.id with
    | none =>
      refine ⟨?_, ?_⟩ <;> simp [get_song_info, hs, buildTrackInfo, hid]
    | some tid =>
      refine ⟨?_, ?_⟩ <;>
        simp [get_song_info, hs, buildTrackInfo, hid, halb, himg]

/-- C6 witness: the amended theorem applied to a track with an empty
images list and to a track with no images key. -/
theorem claim_C6_witness :
    get_song_info "Yesterday" "The Beatles"
        (fun _ => SearchOutcome.results
          [{ preview_url := some "p", explicit := some true, id := some "id1",
             album := some { images := some [], release_date := none },
             external_urls := some { spotify := some "u1" } }]) =
      (some { preview_url := some "p", explicit := true, spotify_id := "id1",
              album_cover := none, release_date := "", spotify_url := "u1" }, []) ∧
    (get_song_info "Yesterday" "The Beatles"
        (fun _ => SearchOutcome.results
          [{ preview_url := none, explicit := none, id := some "id2",
             album := some { images := none, release_date := none },
             external_urls := none }])).1 = none := by
  constructor
  · exact claim_C6.1 "Yesterday" "The Beatles" _
      { preview_url := some "p", explicit := some true, id := some "id1",
        album := some { images := some [], release_date := none },
        external_urls := some { spotify := some "u1" } } []
      { images := some [], release_date := none } "id1" "u1"
      { spotify := some "u1" } rfl rfl rfl rfl rfl rfl
  · exact (claim_C6.2 "Yesterday" "The Beatles" _
      { preview_url := none, explicit := none, id := some "id2",
        album := some { images := none, release_date := none },
        external_urls := none } []
      { images := none, release_date := none } rfl rfl rfl).1

/-- C10: get_song_info is all-or-nothing: a matched track missing any
required key (id, album, or external_urls.spotify) collapses the whole
result to None, and every returned record carries the matched track's
id and canonical URL in its spotify_id and spotify_url fields. -/
theorem claim_C10 :
    (∀ (song artist : String) (search : String → SearchOutcome)
      (tr : Track) (rest : List Track),
      search (buildQuery song artist) = SearchOutcome.results (tr :: rest) →
      (tr.id = none ∨ tr.album = none ∨ tr.external_urls = none ∨
        (∃ ext, tr.external_urls = some ext ∧ ext.spotify = none)) →
      (get_song_info song artist search).1 = none) ∧
    (∀ (song artist : String) (search : String → SearchOutcome)
      (info : TrackInfo),
      (get_song_info song artist search).1 = some info →
      ∃ tr rest, search (buildQuery song artist) = SearchOutcome.results (tr :: rest) ∧
        tr.id = some info.spotify_id ∧
        ∃ ext, tr.external_urls = some ext ∧ ext.spotify = some info.spotify_url) := by
  constructor
  · intro song artist search tr rest hs hmiss
    simp only [get_song_info, hs]
    cases hb : buildTrackInfo tr with
    | error e => simp [hb]
    | ok info =>
      exfalso
      obtain ⟨hid, halb, ext, hext, hsp⟩ := buildTrackInfo_ok_fields tr info hb
      rcases hmiss with hm | hm | hm | ⟨ext2, hm, hm2⟩
      · rw [hm] at hid; exact Option.noConfusion hid
      · exact halb hm
      · rw [hm] at hext; exact Option.noConfusion hext
      · rw [hm] at hext
        injection hext with he
        subst he
        rw [hm2] at hsp
        exact Option.noConfusion hsp
  · intro song artist search info h
    cases hs : search (buildQuery song artist) with
    | error d => simp [get_song_info, hs] at h
    | results items =>
      cases items with
      | nil => simp [get_song_info, hs] at h
      | cons tr rest =>
        cases hb : buildTrackInfo tr with
        | error e => simp [get_song_info, hs, hb] at h
        | ok info2 =>
          simp only [get_song_info, hs, hb, Option.some.injEq] at h
          subst h
          obtain ⟨hid, _, ext, hext, hsp⟩ := buildTrackInfo_ok_fields tr info2 hb
          exact ⟨tr, rest, rfl, hid, ext, hext, hsp⟩

/-- C10 witness: the theorem applied to a matched track whose
external_urls object lacks the spotify key, and to a successful
lookup. -/
theorem claim_C10_witness :
    (get_song_info "Yesterday" "The Beatles"
        (fun _ => SearchOutcome.results
          [{ preview_url := none, explicit := none, id := some "id3",
             album := some { images := some [], release_date := none },
             external_urls := some { spotify := none } }])).1 = none :=
  claim_C10.1 "Yesterday" "The Beatles" _
    { preview_url := none, explicit := none, id := some "id3",
      album := some { images := some [], release_date := none },
      external_urls := some { spotify := none } } [] rfl
    (Or.inr (Or.inr (Or.inr ⟨{ spotify := none }, rfl, rfl⟩)))

/-- C7 counterexample: the claim says the primary entry is the direct
track URL whenever the catalog id is present, but for the present but
empty id the builder falls back to the search URL (Python truthiness),
which is not a direct track URL. -/
theorem claim_C7_counterexample :
    (show_alternatives "Yesterday" "The Beatles" (some "")).head? =
      some ("Spotify Direct",
        "https://open.spotify.com/search/Yesterday%20The%20Beatles") ∧
    ("https://open.spotify.com/search/Yesterday%20The%20Beatles" : String) ≠
      "https://open.spotify.com/track/" := by
  exact ⟨by decide, by decide⟩

/-- C7 amended: the builder always returns exactly four entries named
Spotify Direct, YouTube Music, SoundCloud, Deezer in that fixed order;
the primary entry is the direct track URL when the catalog id is
present and non-empty, and the catalog search URL over the combined
title-artist text when the id is absent or empty. -/
theorem claim_C7 (song artist : String) (oid : Option String) :
    (show_alternatives song artist oid).map Prod.fst =
      ["Spotify Direct", "YouTube Music", "SoundCloud", "Deezer"] ∧
    (show_alternatives song artist oid).length = 4 ∧
    (∀ sid : String, oid = some sid → sid ≠ "" →
      (show_alternatives song artist oid).head? =
        some ("Spotify Direct", "https://open.spotify.com/track/" ++ sid)) ∧
    (oid = none ∨ oid = some "" →
      (show_alternatives song artist oid).head? =
        some ("Spotify Direct",
          "https://open.spotify.com/search/" ++ quote (song ++ " " ++ artist))) := by
  refine ⟨rfl, rfl, ?_, ?_⟩
  · intro sid hsid hne
    subst hsid
    simp [show_alternatives, hne]
  · intro hcase
    rcases hcase with h | h <;> subst h <;> simp [show_alternatives]

/-- C7 witness: the amended theorem applied with a non-empty id and
with an absent id. -/
theorem claim_C7_witness :
    (show_alternatives "Yesterday" "The Beatles" (some "abc123")).head? =
      some ("Spotify Direct", "https://open.spotify.com/track/" ++ "abc123") ∧
    (show_alternatives "Yesterday" "The Beatles" none).head? =
      some ("Spotify Direct",
        "https://open.spotify.com/search/" ++
          quote ("Yesterday" ++ " " ++ "The Beatles")) :=
  ⟨(claim_C7 "Yesterday" "The Beatles" (some "abc123")).2.2.1 "abc123" rfl
      (by decide),
   (claim_C7 "Yesterday" "The Beatles" none).2.2.2 (Or.inl rfl)⟩

/-- C8: every URL the builder produces encodes the combined
title-artist text with the destination's convention: quote_plus
(space-as-plus) for the YouTube Music and SoundCloud search URLs, and
quote (space-as-percent-20) for the Spotify search and Deezer URLs; the
two conventions differ, as space shows. -/
theorem claim_C8 (song artist : String) (oid : Option String) :
    (show_alternatives song artist oid).drop 1 =
      [("YouTube Music",
          "https://music.youtube.com/search?q=" ++ quote_plus (song ++ " " ++ artist)),
        ("SoundCloud",
          "https://soundcloud.com/search?q=" ++ quote_plus (song ++ " " ++ artist)),
        ("Deezer",
          "https://www.deezer.com/search/" ++ quote (song ++ " " ++ artist))] ∧
    (oid = none →
      (show_alternatives song artist oid).head? =
        some ("Spotify Direct",
          "https://open.spotify.com/search/" ++ quote (song ++ " " ++ artist))) ∧
    quote_plus "a b" = "a+b" ∧
    quote "a b" = "a%20b" := by
  refine ⟨rfl, ?_, by decide, by decide⟩
  intro h
  subst h
  rfl

/-- C8 witness: the theorem applied with an absent catalog id, with the
encodings evaluated on a concrete query. -/
theorem claim_C8_witness :
    (show_alternatives "Yesterday" "The Beatles" none).head? =
      some ("Spotify Direct",
        "https://open.spotify.com/search/" ++
          quote ("Yesterday" ++ " " ++ "The Beatles")) ∧
    quote ("Yesterday" ++ " " ++ "The Beatles") = "Yesterday%20The%20Beatles" ∧
    quote_plus ("Yesterday" ++ " " ++ "The Beatles") = "Yesterday+The+Beatles" :=
  ⟨(claim_C8 "Yesterday" "The Beatles" none).2.1 rfl, by decide, by decide⟩
